import Mathlib

/-
Shallow embedding of rotor's `src/response.rs`.

The Rust code is generic over a machine type `M` and a spawn-result type `N`;
it also uses the crate-level `Time` type (an opaque instant) and boxed
polymorphic errors (`Box<Error>`).  We model those as additional type
parameters `T` (time) and `E` (error value).  `mio::Token` is a newtype over
`usize`; we model it as `Nat`.

Rust panics are modelled as `Except String`, the string being the panic
message; the `warn!` side effect inside `decompose` (active when the crate is
compiled with the `log_errors` feature) is modelled by returning the list of
emitted log lines alongside the pure result, with the feature flag and the
error's `Display` rendering passed in explicitly.
-/

namespace Rotor

/-- Modelled from the spec: the driver's opaque machine-slot identifier
("token", `mio::Token`, a newtype over `usize`); its definition lives outside
`src/`.  Used only for diagnostic attribution. -/
abbrev Token := Nat

/-- The five-variant outcome enum `ResponseImpl<M, N>` from `src/response.rs`,
with the crate-level error and time types made explicit as parameters `E`
and `T`. -/
inductive ResponseImpl (E T M N : Type) : Type where
  | Normal (machine : M)
  | Deadline (machine : M) (time : T)
  | Spawn (machine : M) (result : N)
  | Error (e : E)
  | Done

/-- Modelled from the spec: the public newtype `Response<M, N>` wrapping
`ResponseImpl` (declared in the crate root, outside `src/`; `src/response.rs`
accesses its single field as `self.0`). -/
structure Response (E T M N : Type) : Type where
  imp : ResponseImpl E T M N

variable {E T M N A B : Type}

/-- Constructor `Response::ok`. -/
def Response.ok (machine : M) : Response E T M N :=
  ⟨ResponseImpl.Normal machine⟩

/-- Constructor `Response::spawn`. -/
def Response.spawn (machine : M) (result : N) : Response E T M N :=
  ⟨ResponseImpl.Spawn machine result⟩

/-- Constructor `Response::done`. -/
def Response.done : Response E T M N :=
  ⟨ResponseImpl.Done⟩

/-- Constructor `Response::error`. -/
def Response.error (e : E) : Response E T M N :=
  ⟨ResponseImpl.Error e⟩

/-- The `Response::deadline` transform.  On `Normal` and `Deadline` it
attaches/replaces the time; on the three terminal variants the Rust code
panics, modelled here as `Except.error` carrying the panic message. -/
def Response.deadline (self : Response E T M N) (time : T) :
    Except String (Response E T M N) :=
  match self.imp with
  | ResponseImpl.Normal x => Except.ok ⟨ResponseImpl.Deadline x time⟩
  | ResponseImpl.Deadline x _ => Except.ok ⟨ResponseImpl.Deadline x time⟩
  | ResponseImpl.Spawn _ _ =>
      Except.error ("You cannot attach a deadline/timeout to the " ++
        "Response::spawn(). The spawn action is synchronous " ++
        "you must set a deadline in the spawned handler.")
  | ResponseImpl.Done =>
      Except.error ("You cannot attach a deadline/timeout to " ++
        "Response::done() as it is useless. Timeout will never happen")
  | ResponseImpl.Error _ =>
      Except.error ("You cannot attach a deadline/timeout to " ++
        "Response::error(_) as it is useless. Timeout will never happen")

/-- `Response::map`: maps the carried machine with `self_mapper` and the
carried spawn result with `result_mapper`, preserving the variant. -/
def Response.map (self : Response E T M N)
    (self_mapper : M → A) (result_mapper : N → B) : Response E T A B :=
  match self.imp with
  | ResponseImpl.Normal m => ⟨ResponseImpl.Normal (self_mapper m)⟩
  | ResponseImpl.Deadline m time => ⟨ResponseImpl.Deadline (self_mapper m) time⟩
  | ResponseImpl.Spawn m n => ⟨ResponseImpl.Spawn (self_mapper m) (result_mapper n)⟩
  | ResponseImpl.Done => ⟨ResponseImpl.Done⟩
  | ResponseImpl.Error e => ⟨ResponseImpl.Error e⟩

/-- `Response::wrap`: like `map` but only maps the machine, leaving the spawn
result type unchanged. -/
def Response.wrap (self : Response E T M N) (self_mapper : M → A) :
    Response E T A N :=
  match self.imp with
  | ResponseImpl.Normal m => ⟨ResponseImpl.Normal (self_mapper m)⟩
  | ResponseImpl.Deadline m time => ⟨ResponseImpl.Deadline (self_mapper m) time⟩
  | ResponseImpl.Spawn m n => ⟨ResponseImpl.Spawn (self_mapper m) n⟩
  | ResponseImpl.Done => ⟨ResponseImpl.Done⟩
  | ResponseImpl.Error e => ⟨ResponseImpl.Error e⟩

/-- `Response::is_stopped`: true iff the response was created with `done` or
`error`. -/
def Response.is_stopped (self : Response E T M N) : Bool :=
  match self.imp with
  | ResponseImpl.Normal _ => false
  | ResponseImpl.Deadline _ _ => false
  | ResponseImpl.Spawn _ _ => false
  | ResponseImpl.Done => true
  | ResponseImpl.Error _ => true

/-- `Response::cause`: the carried error value for the `Error` variant,
`none` for every other constructor. -/
def Response.cause (self : Response E T M N) : Option E :=
  match self.imp with
  | ResponseImpl.Normal _ => none
  | ResponseImpl.Deadline _ _ => none
  | ResponseImpl.Spawn _ _ => none
  | ResponseImpl.Done => none
  | ResponseImpl.Error e => some e

/-- The `Debug` rendering of a variant, as it appears in the `expect_*`
panic messages (payloads elided, since the payload types are abstract). -/
def ResponseImpl.describe : ResponseImpl E T M N → String
  | ResponseImpl.Normal _ => "Normal(..)"
  | ResponseImpl.Deadline _ _ => "Deadline(..)"
  | ResponseImpl.Spawn _ _ => "Spawn(..)"
  | ResponseImpl.Error _ => "Error(..)"
  | ResponseImpl.Done => "Done"

/-- `Response::expect_machine`: returns the machine for `Normal` and for
`Deadline`; panics (modelled as `Except.error`) on the other variants,
naming the actual variant found. -/
def Response.expect_machine (self : Response E T M N) : Except String M :=
  match self.imp with
  | ResponseImpl.Normal x => Except.ok x
  | ResponseImpl.Deadline x _ => Except.ok x
  | me => Except.error ("expected machine (Response::ok(x)), got " ++
      me.describe ++ " instead")

/-- `Response::expect_spawn`: returns the machine/result pair for `Spawn`;
panics on every other variant, naming the actual variant found. -/
def Response.expect_spawn (self : Response E T M N) : Except String (M × N) :=
  match self.imp with
  | ResponseImpl.Spawn x y => Except.ok (x, y)
  | me => Except.error ("expected spawn (Response::spawn(x)), got " ++
      me.describe ++ " instead")

/-- `Response::expect_done`: succeeds (with unit) for `Done`; panics on every
other variant, naming the actual variant found. -/
def Response.expect_done (self : Response E T M N) : Except String Unit :=
  match self.imp with
  | ResponseImpl.Done => Except.ok ()
  | me => Except.error ("expected done (Response::done()), got " ++
      me.describe ++ " instead")

/-- `Response::expect_error`: returns the error value for `Error`; panics on
every other variant, naming the actual variant found. -/
def Response.expect_error (self : Response E T M N) : Except String E :=
  match self.imp with
  | ResponseImpl.Error e => Except.ok e
  | me => Except.error ("expected error (Response::error(e)), got " ++
      me.describe ++ " instead")

/-- The free function `decompose` from `src/response.rs`.  Returns the
driver-actionable triple paired with the list of warning lines emitted
(non-empty only for the `Error` variant when the `log_errors` feature is
on).  `log_errors` models the compile-time feature flag and `show_err` the
error's `Display` rendering. -/
def decompose (log_errors : Bool) (show_err : E → String) (token : Token)
    (res : Response E T M N) :
    (Except (Option E) M × Option N × Option T) × List String :=
  match res.imp with
  | ResponseImpl.Normal m => ((Except.ok m, none, none), [])
  | ResponseImpl.Deadline m time => ((Except.ok m, none, some time), [])
  | ResponseImpl.Spawn m n => ((Except.ok m, some n, none), [])
  | ResponseImpl.Done => ((Except.error none, none, none), [])
  | ResponseImpl.Error e =>
      ((Except.error (some e), none, none),
        if log_errors then
          ["State machine " ++ toString token ++ " exited with error: " ++
            show_err e]
        else [])

/-- C1: for every machine type, spawn-result type, token and outcome value,
`decompose` maps each of the five constructors to exactly the triple of
section 4.2 of the spec: `ok(m)` to `(Ok(m), None, None)`, the
deadline-carrying outcome `(m, t)` to `(Ok(m), None, Some(t))`,
`spawn(m, n)` to `(Ok(m), Some(n), None)`, `done()` to
`(Err(None), None, None)`, and `error(e)` to `(Err(Some(e)), None, None)`
with the very same error value carried through unchanged. -/
theorem decompose_maps_each_constructor (E T M N : Type) (le : Bool)
    (se : E → String) (token : Token) (m : M) (n : N) (t : T) (e : E) :
    (decompose le se token (Response.ok (E := E) (T := T) (N := N) m)).1
      = (Except.ok m, none, none) ∧
    (decompose le se token
        (Response.mk (ResponseImpl.Deadline (E := E) (N := N) m t))).1
      = (Except.ok m, none, some t) ∧
    (decompose le se token (Response.spawn (E := E) (T := T) m n)).1
      = (Except.ok m, some n, none) ∧
    (decompose le se token
        (Response.done (E := E) (T := T) (M := M) (N := N))).1
      = (Except.error none, none, none) ∧
    (decompose le se token (Response.error (T := T) (M := M) (N := N) e)).1
      = (Except.error (some e), none, none) :=
  ⟨rfl, rfl, rfl, rfl, rfl⟩

/-- C2: for every token and outcome value, `decompose` returns exactly one
triple (it is a total function, never panicking), and the triple never has
both the spawn-payload component and the deadline component present at the
same time. -/
theorem decompose_total_and_exclusive (E T M N : Type) (le : Bool)
    (se : E → String) (token : Token) (res : Response E T M N) :
    (∃ out, (decompose le se token res).1 = out ∧
      ∀ out2, (decompose le se token res).1 = out2 → out2 = out) ∧
    (((decompose le se token res).1.2.1.isSome &&
      (decompose le se token res).1.2.2.isSome) = false) := by
  obtain ⟨imp⟩ := res
  refine ⟨⟨_, rfl, fun out2 h => h.symm⟩, ?_⟩
  cases imp <;> rfl

/-- C3: for every time, applying the `deadline` transform to a `Spawn`,
`Done` or `Error` outcome always takes the fatal precondition path,
producing a panic with a descriptive message identifying the rejecting
variant; it never succeeds with an outcome. -/
theorem deadline_rejects_spawn_done_error (E T M N : Type)
    (m : M) (n : N) (e : E) (t : T) :
    (Response.spawn (E := E) (T := T) m n).deadline t
      = Except.error ("You cannot attach a deadline/timeout to the " ++
          "Response::spawn(). The spawn action is synchronous " ++
          "you must set a deadline in the spawned handler.") ∧
    (Response.done (E := E) (T := T) (M := M) (N := N)).deadline t
      = Except.error ("You cannot attach a deadline/timeout to " ++
          "Response::done() as it is useless. Timeout will never happen") ∧
    (Response.error (T := T) (M := M) (N := N) e).deadline t
      = Except.error ("You cannot attach a deadline/timeout to " ++
          "Response::error(_) as it is useless. Timeout will never happen") ∧
    ((Response.spawn (E := E) (T := T) m n).deadline t).isOk = false ∧
    ((Response.done (E := E) (T := T) (M := M) (N := N)).deadline t).isOk
      = false ∧
    ((Response.error (T := T) (M := M) (N := N) e).deadline t).isOk = false :=
  ⟨rfl, rfl, rfl, rfl, rfl, rfl⟩

/-- C4: applying the `deadline` transform with time `t` to `ok(m)` yields the
deadline-carrying variant with machine `m` and time `t`, and applying it
again with `t2` to that result yields the deadline-carrying variant with
machine `m` and time `t2`: the new time replaces the old one. -/
theorem deadline_sets_and_replaces (E T M N : Type) (m : M) (t t2 : T) :
    (Response.ok (E := E) (N := N) m).deadline t
      = Except.ok (Response.mk (ResponseImpl.Deadline m t)) ∧
    (Response.mk (ResponseImpl.Deadline (E := E) (N := N) m t)).deadline t2
      = Except.ok (Response.mk (ResponseImpl.Deadline m t2)) :=
  ⟨rfl, rfl⟩

/-- C5: `is_stopped` returns `true` exactly on the `Done` and `Error`
variants and `false` on `Normal`, `Deadline` and `Spawn`; since every
outcome value is one of these five shapes with arbitrary payloads, this
characterizes the function completely. -/
theorem is_stopped_characterization (E T M N : Type)
    (m : M) (n : N) (t : T) (e : E) :
    (Response.ok (E := E) (T := T) (N := N) m).is_stopped = false ∧
    (Response.mk
        (ResponseImpl.Deadline (E := E) (N := N) m t)).is_stopped = false ∧
    (Response.spawn (E := E) (T := T) m n).is_stopped = false ∧
    (Response.done (E := E) (T := T) (M := M) (N := N)).is_stopped = true ∧
    (Response.error (T := T) (M := M) (N := N) e).is_stopped = true :=
  ⟨rfl, rfl, rfl, rfl, rfl⟩

/-- C6: `map f g` and the machine-only mapper `wrap f` preserve the variant
shape and leave any carried deadline or error untouched: `Spawn(m, n)` maps
to `Spawn(f m, g n)` (to `Spawn(f m, n)` under `wrap`), the deadline
variant `(m, t)` maps to `(f m, t)` with the same `t`, `Error e` maps to
`Error e` unchanged, and `Done` maps to `Done`. -/
theorem map_wrap_preserve_shape (E T M N A B : Type)
    (f : M → A) (g : N → B) (m : M) (n : N) (t : T) (e : E) :
    (Response.spawn (E := E) (T := T) m n).map f g
      = Response.spawn (f m) (g n) ∧
    (Response.mk (ResponseImpl.Deadline (E := E) (N := N) m t)).map f g
      = Response.mk (ResponseImpl.Deadline (f m) t) ∧
    (Response.error (T := T) (M := M) (N := N) e).map f g
      = Response.error e ∧
    (Response.done (E := E) (T := T) (M := M) (N := N)).map f g
      = Response.done ∧
    (Response.ok (E := E) (T := T) (N := N) m).map f g
      = Response.ok (f m) ∧
    (Response.spawn (E := E) (T := T) m n).wrap f
      = Response.spawn (f m) n ∧
    (Response.mk (ResponseImpl.Deadline (E := E) (N := N) m t)).wrap f
      = Response.mk (ResponseImpl.Deadline (f m) t) ∧
    (Response.error (T := T) (M := M) (N := N) e).wrap f
      = Response.error e ∧
    (Response.done (E := E) (T := T) (M := M) (N := N)).wrap f
      = Response.done ∧
    (Response.ok (E := E) (T := T) (N := N) m).wrap f
      = Response.ok (f m) :=
  ⟨rfl, rfl, rfl, rfl, rfl, rfl, rfl, rfl, rfl, rfl⟩

/-- C7 counterexample: the claim says each strict extraction helper aborts
for every variant other than the single one it is named for, but
`expect_machine` applied to a deadline-carrying outcome returns the machine
instead of aborting. -/
theorem expect_machine_accepts_deadline_counterexample :
    (Response.mk (ResponseImpl.Deadline (0 : Nat) (1 : Nat)) :
        Response Nat Nat Nat Nat).expect_machine = Except.ok 0 :=
  rfl

/-- C7 (amended): `expect_machine` returns the machine for both `Normal` and
`Deadline` outcomes; `expect_spawn`, `expect_done` and `expect_error` each
return the expected payload exactly for their named variant; every other
variant makes the helper abort with a descriptive message identifying the
actual variant found. -/
theorem expect_helpers_characterization (E T M N : Type)
    (m : M) (n : N) (t : T) (e : E) :
    (Response.ok (E := E) (T := T) (N := N) m).expect_machine
      = Except.ok m ∧
    (Response.mk
        (ResponseImpl.Deadline (E := E) (N := N) m t)).expect_machine
      = Except.ok m ∧
    (Response.spawn (E := E) (T := T) m n).expect_machine
      = Except.error ("expected machine (Response::ok(x)), got " ++
          (ResponseImpl.Spawn (E := E) (T := T) m n).describe ++ " instead") ∧
    (Response.done (E := E) (T := T) (M := M) (N := N)).expect_machine
      = Except.error ("expected machine (Response::ok(x)), got " ++
          (ResponseImpl.Done (E := E) (T := T) (M := M) (N := N)).describe ++
          " instead") ∧
    (Response.error (T := T) (M := M) (N := N) e).expect_machine
      = Except.error ("expected machine (Response::ok(x)), got " ++
          (ResponseImpl.Error (T := T) (M := M) (N := N) e).describe ++
          " instead") ∧
    (Response.spawn (E := E) (T := T) m n).expect_spawn
      = Except.ok (m, n) ∧
    (Response.ok (E := E) (T := T) (N := N) m).expect_spawn
      = Except.error ("expected spawn (Response::spawn(x)), got " ++
          (ResponseImpl.Normal (E := E) (T := T) (N := N) m).describe ++
          " instead") ∧
    (Response.mk
        (ResponseImpl.Deadline (E := E) (N := N) m t)).expect_spawn
      = Except.error ("expected spawn (Response::spawn(x)), got " ++
          (ResponseImpl.Deadline (E := E) (N := N) m t).describe ++
          " instead") ∧
    (Response.done (E := E) (T := T) (M := M) (N := N)).expect_spawn
      = Except.error ("expected spawn (Response::spawn(x)), got " ++
          (ResponseImpl.Done (E := E) (T := T) (M := M) (N := N)).describe ++
          " instead") ∧
    (Response.error (T := T) (M := M) (N := N) e).expect_spawn
      = Except.error ("expected spawn (Response::spawn(x)), got " ++
          (ResponseImpl.Error (T := T) (M := M) (N := N) e).describe ++
          " instead") ∧
    (Response.done (E := E) (T := T) (M := M) (N := N)).expect_done
      = Except.ok () ∧
    (Response.ok (E := E) (T := T) (N := N) m).expect_done
      = Except.error ("expected done (Response::done()), got " ++
          (ResponseImpl.Normal (E := E) (T := T) (N := N) m).describe ++
          " instead") ∧
    (Response.mk
        (ResponseImpl.Deadline (E := E) (N := N) m t)).expect_done
      = Except.error ("expected done (Response::done()), got " ++
          (ResponseImpl.Deadline (E := E) (N := N) m t).describe ++
          " instead") ∧
    (Response.spawn (E := E) (T := T) m n).expect_done
      = Except.error ("expected done (Response::done()), got " ++
          (ResponseImpl.Spawn (E := E) (T := T) m n).describe ++
          " instead") ∧
    (Response.error (T := T) (M := M) (N := N) e).expect_done
      = Except.error ("expected done (Response::done()), got " ++
          (ResponseImpl.Error (T := T) (M := M) (N := N) e).describe ++
          " instead") ∧
    (Response.error (T := T) (M := M) (N := N) e).expect_error
      = Except.ok e ∧
    (Response.ok (E := E) (T := T) (N := N) m).expect_error
      = Except.error ("expected error (Response::error(e)), got " ++
          (ResponseImpl.Normal (E := E) (T := T) (N := N) m).describe ++
          " instead") ∧
    (Response.mk
        (ResponseImpl.Deadline (E := E) (N := N) m t)).expect_error
      = Except.error ("expected error (Response::error(e)), got " ++
          (ResponseImpl.Deadline (E := E) (N := N) m t).describe ++
          " instead") ∧
    (Response.spawn (E := E) (T := T) m n).expect_error
      = Except.error ("expected error (Response::error(e)), got " ++
          (ResponseImpl.Spawn (E := E) (T := T) m n).describe ++
          " instead") ∧
    (Response.done (E := E) (T := T) (M := M) (N := N)).expect_error
      = Except.error ("expected error (Response::error(e)), got " ++
          (ResponseImpl.Done (E := E) (T := T) (M := M) (N := N)).describe ++
          " instead") :=
  ⟨rfl, rfl, rfl, rfl, rfl, rfl, rfl, rfl, rfl, rfl,
   rfl, rfl, rfl, rfl, rfl, rfl, rfl, rfl, rfl, rfl⟩

/-- C8: `cause` returns the carried error exactly when the variant is
`Error` (constructed by `error(e)`), and `none` for the `Normal`,
`Deadline`, `Spawn` and `Done` variants. -/
theorem cause_characterization (E T M N : Type)
    (m : M) (n : N) (t : T) (e : E) :
    (Response.error (T := T) (M := M) (N := N) e).cause = some e ∧
    (Response.ok (E := E) (T := T) (N := N) m).cause = none ∧
    (Response.mk (ResponseImpl.Deadline (E := E) (N := N) m t)).cause
      = none ∧
    (Response.spawn (E := E) (T := T) m n).cause = none ∧
    (Response.done (E := E) (T := T) (M := M) (N := N)).cause = none :=
  ⟨rfl, rfl, rfl, rfl, rfl⟩

/-- C9: the triple returned by `decompose` is independent of the token
argument: for any two tokens the result triples are equal; the token
influences only the diagnostic log line. -/
theorem decompose_token_independent (E T M N : Type) (le : Bool)
    (se : E → String) (t1 t2 : Token) (res : Response E T M N) :
    (decompose le se t1 res).1 = (decompose le se t2 res).1 := by
  obtain ⟨imp⟩ := res
  cases imp <;> rfl

/-- C10: for every outcome value and machine function `f`, the machine-only
mapper `wrap f` agrees with `map f id`. -/
theorem wrap_eq_map_id (E T M N A : Type) (f : M → A)
    (res : Response E T M N) :
    res.wrap f = res.map f id := by
  obtain ⟨imp⟩ := res
  cases imp <;> rfl

end Rotor
